import Mathlib

/-!
Shallow embedding of the order-lifecycle and access-control core of the
e-commerce backend (`src/server.js`, plus the earlier variant in
`src/unnamed/part_000`).  Mongoose documents become Lean structures, the
Mongo collections become association lists keyed by numeric ids, route
handlers become pure functions from (request data, store) to
(response, store), and the Razorpay client becomes a function parameter
that may fail (`Option`).
-/

namespace ECom

/-! ## Data model (Mongoose schemas) -/

/-- An embedded order item (`OrderItemSchema`): product reference, captured
name, quantity and captured unit price. -/
structure OrderItem where
  product : Nat
  name : String
  quantity : Int
  price : Int
  deriving Repr, DecidableEq

/-- An order document (`OrderSchema`).  `status` is a plain `String` in the
schema (default `"Pending"`); `razorpayOrderId` is an optional field (present
only on the payment path). -/
structure Order where
  user : Nat
  razorpayOrderId : Option String
  items : List OrderItem
  totalPrice : Int
  status : String
  createdAt : Nat
  deriving Repr, DecidableEq

/-- A user document (`UserSchema` of `server.js`): credentials plus the two
role flags. -/
structure UserRec where
  name : String
  email : String
  password : String
  isAdmin : Bool
  isDeliveryAdmin : Bool
  deriving Repr, DecidableEq

/-- The order collection, as an association list from document id to order
(`Order.findById` / `order.save()` are key-based lookup and replace). -/
abbrev Ledger := List (Nat × Order)

/-- The user collection. -/
abbrev UserStore := List (Nat × UserRec)

/-- `Order.findById`: first entry with the given id, if any. -/
def findById (l : Ledger) (id : Nat) : Option Order :=
  (l.find? (fun p => p.1 == id)).map (fun p => p.2)

/-- `order.save()` on an already-persisted document: replace the stored
order at its id, leaving every other entry unchanged. -/
def saveOrder (l : Ledger) (id : Nat) (o : Order) : Ledger :=
  l.map (fun p => if p.1 == id then (p.1, o) else p)

/-- `User.findById`. -/
def userFindById (s : UserStore) (id : Nat) : Option UserRec :=
  (s.find? (fun p => p.1 == id)).map (fun p => p.2)

/-! ## Token issuer and `auth` middleware -/

/-- The payload placed in a JWT at issuance (`payload.user` in the
register/login handlers of `server.js`): user id and the role flags as they
stood when the token was minted. -/
structure TokenClaim where
  id : Nat
  isAdmin : Bool
  isDeliveryAdmin : Bool
  deriving Repr, DecidableEq

/-- A presented token, carrying everything `jwt.verify` inspects: its
payload, whether it is structurally well formed, whether its signature
checks out against the server secret, and its absolute expiry time. -/
structure Token where
  claim : TokenClaim
  wellFormed : Bool
  sigValid : Bool
  expiry : Nat
  deriving Repr, DecidableEq

/-- The distinct reasons `jwt.verify` can throw. -/
inductive VerifyFailure where
  | malformed
  | badSignature
  | expired
  deriving Repr, DecidableEq

/-- `jwt.verify(token, secret)`: rejects malformed tokens, wrong
signatures and expired tokens, otherwise yields the embedded payload. -/
def jwtVerify (now : Nat) (t : Token) : Except VerifyFailure TokenClaim :=
  if !t.wellFormed then .error .malformed
  else if !t.sigValid then .error .badSignature
  else if t.expiry ≤ now then .error .expired
  else .ok t.claim

/-- Outcome of the `auth` middleware: the two 401 responses it can send, or
the verified claim stored into `req.user`. -/
inductive AuthOutcome where
  | noToken
  | notValid
  | authed (claim : TokenClaim)
  deriving Repr, DecidableEq

/-- The `auth` middleware of `server.js`: 401 `No token, authorization
denied` when the header is absent; a single catch turns every
`jwt.verify` failure into 401 `Token is not valid`; otherwise
`req.user = decoded.user`. -/
def auth (now : Nat) (tok : Option Token) : AuthOutcome :=
  match tok with
  | none => .noToken
  | some t =>
    match jwtVerify now t with
    | .error _ => .notValid
    | .ok c => .authed c

/-! ## Role gates -/

/-- Outcome of a role gate middleware: fall through to the handler, or a
403 with the role-specific message. -/
inductive GateOutcome where
  | pass
  | forbidden (msg : String)
  deriving Repr, DecidableEq

/-- `authAdmin` of `server.js`: re-fetches the user record by the id from
the verified claim and rejects unless the *stored* `isAdmin` flag is set. -/
def authAdmin (store : UserStore) (claim : TokenClaim) : GateOutcome :=
  match userFindById store claim.id with
  | none => .forbidden "Admin access required"
  | some u => if u.isAdmin then .pass else .forbidden "Admin access required"

/-- `authDeliveryAdmin` of `server.js`: same shape, against the stored
`isDeliveryAdmin` flag. -/
def authDeliveryAdmin (store : UserStore) (claim : TokenClaim) : GateOutcome :=
  match userFindById store claim.id with
  | none => .forbidden "Delivery Admin access required"
  | some u => if u.isDeliveryAdmin then .pass else .forbidden "Delivery Admin access required"

/-- Result of running `auth` then a role gate, as on the admin routes. -/
inductive GatedOutcome where
  | authFailed (a : AuthOutcome)
  | forbidden (msg : String)
  | pass (claim : TokenClaim)
  deriving Repr, DecidableEq

/-- The `auth, authAdmin` middleware chain on admin routes. -/
def adminGate (now : Nat) (tok : Option Token) (store : UserStore) : GatedOutcome :=
  match auth now tok with
  | .authed c =>
    match authAdmin store c with
    | .pass => .pass c
    | .forbidden m => .forbidden m
  | a => .authFailed a

/-- The `auth, authDeliveryAdmin` middleware chain on delivery routes. -/
def deliveryAdminGate (now : Nat) (tok : Option Token) (store : UserStore) : GatedOutcome :=
  match auth now tok with
  | .authed c =>
    match authDeliveryAdmin store c with
    | .pass => .pass c
    | .forbidden m => .forbidden m
  | a => .authFailed a

/-! ## Payment adapter and order creation -/

/-- The options object handed to `razorpay.orders.create` in
`POST /api/orders/pay`. -/
structure PayOptions where
  amount : Int
  currency : String
  receipt : String
  deriving Repr, DecidableEq

/-- The opaque order object returned by Razorpay; only its `id` is used. -/
structure RazorpayOrder where
  id : String
  deriving Repr, DecidableEq

/-- The external payment client: `none` models the adapter call throwing. -/
abbrev PaymentAdapter := PayOptions → Option RazorpayOrder

/-- A cart item as sent by the client in the request body. -/
structure CartItem where
  itemId : Nat
  name : String
  quantity : Int
  price : Int
  deriving Repr, DecidableEq

/-- `cartItems.map(item => ({product, name, quantity, price}))` as written
in both creation handlers. -/
def mapCartItems (cartItems : List CartItem) : List OrderItem :=
  cartItems.map (fun item =>
    { product := item.itemId, name := item.name
      quantity := item.quantity, price := item.price })

/-- Responses of `POST /api/orders/pay`. -/
inductive PayResult where
  | emptyCart
  | serverError
  | ok (razorpayOrder : RazorpayOrder)
  deriving Repr, DecidableEq

/-- The body of `POST /api/orders/pay` (`server.js`) after `auth`: reject an
empty cart with 400; call `razorpay.orders.create` with `amount =
totalPrice * 100`, currency `INR`, receipt derived from the requester; on
adapter failure the catch answers 500 and nothing is saved; otherwise a new
order is saved with the client-supplied items and totalPrice, the returned
Razorpay id, and status `Processing`.  `freshId` is the document id Mongo
assigns, `now` the creation timestamp. -/
def ordersPay (adapter : PaymentAdapter) (l : Ledger) (freshId : Nat)
    (userId : Nat) (cartItems : List CartItem) (totalPrice : Int)
    (now : Nat) : PayResult × Ledger :=
  if cartItems.length == 0 then (.emptyCart, l)
  else
    let options : PayOptions :=
      { amount := totalPrice * 100, currency := "INR"
        receipt := "receipt_" ++ toString userId }
    match adapter options with
    | none => (.serverError, l)
    | some razorpayOrder =>
      let newOrder : Order :=
        { user := userId, razorpayOrderId := some razorpayOrder.id
          items := mapCartItems cartItems, totalPrice := totalPrice
          status := "Processing", createdAt := now }
      (.ok razorpayOrder, l ++ [(freshId, newOrder)])

/-- Responses of `POST /api/orders` (`src/unnamed/part_000`). -/
inductive CreateResult where
  | emptyCart
  | created (order : Order)
  deriving Repr, DecidableEq

/-- The body of `POST /api/orders` in `src/unnamed/part_000` after `auth`:
reject an empty cart with 400, otherwise save a new order with the
client-supplied items and totalPrice.  `status` is not set and so takes the
schema default `"Pending"`; that schema has no razorpay field. -/
def ordersCreate (l : Ledger) (freshId : Nat) (userId : Nat)
    (cartItems : List CartItem) (totalPrice : Int) (now : Nat) :
    CreateResult × Ledger :=
  if cartItems.length == 0 then (.emptyCart, l)
  else
    let newOrder : Order :=
      { user := userId, razorpayOrderId := none
        items := mapCartItems cartItems, totalPrice := totalPrice
        status := "Pending", createdAt := now }
    (.created newOrder, l ++ [(freshId, newOrder)])

/-! ## Cancellation and delivery-status update -/

/-- Responses of `PUT /api/orders/:id/cancel`: 404, 401 (not the owner),
400 (not cancellable at this stage), or 200 with the updated order. -/
inductive CancelResult where
  | notFound
  | notOwner
  | invalidState
  | ok (order : Order)
  deriving Repr, DecidableEq

/-- The body of `PUT /api/orders/:id/cancel` after `auth`: look the order
up; 404 if missing; 401 if it does not belong to the requester; 400 unless
the status is `Processing` or `Pending`; otherwise set the status to
`Canceled` and save. -/
def cancelOrder (l : Ledger) (orderId : Nat) (requesterId : Nat) :
    CancelResult × Ledger :=
  match findById l orderId with
  | none => (.notFound, l)
  | some order =>
    if order.user != requesterId then (.notOwner, l)
    else if order.status != "Processing" && order.status != "Pending" then
      (.invalidState, l)
    else
      let updated := { order with status := "Canceled" }
      (.ok updated, saveOrder l orderId updated)

/-- Responses of `PUT /api/delivery/orders/:id/status`. -/
inductive DeliveryResult where
  | notFound
  | ok (order : Order)
  deriving Repr, DecidableEq

/-- The body of `PUT /api/delivery/orders/:id/status` after the delivery
gate: 404 if the order is missing, otherwise overwrite its status with the
client-supplied string, with no check at all on the value, and save. -/
def setDeliveryStatus (l : Ledger) (orderId : Nat) (newStatus : String) :
    DeliveryResult × Ledger :=
  match findById l orderId with
  | none => (.notFound, l)
  | some order =>
    let updated := { order with status := newStatus }
    (.ok updated, saveOrder l orderId updated)

/-! ## Raw request layer for the empty-cart guard

The creation handlers read `cartItems.length` on whatever JSON value the
client sent, before any other check.  `JSVal` covers the possible shapes of
`req.body.cartItems` as the guard sees them. -/

/-- A JSON value in the `cartItems` position: absent/`null` (reading
`.length` throws a TypeError), an array, a string (has a numeric
`.length`), an object (whose `length` key, when it holds a number, is what
`.length` reads; `len = none` covers objects without a numeric `length`
property — against the handler's strict `=== 0` guard a non-numeric
`length` value behaves exactly like `undefined`), or a number/boolean
(`.length` reads as `undefined`). -/
inductive JSVal where
  | absent
  | arr (items : List CartItem)
  | str (s : String)
  | obj (len : Option Int)
  | other
  deriving Repr, DecidableEq

/-- Reading `v.length` in JavaScript: a TypeError (`.error`) on
`undefined`/`null`, the element count on arrays, the character count on
strings, the value of the object's own `length` property when it is a
number, `undefined` (`.ok none`) on everything else. -/
def jsLength : JSVal → Except Unit (Option Int)
  | .absent => .error ()
  | .arr items => .ok (some items.length)
  | .str s => .ok (some s.length)
  | .obj len => .ok len
  | .other => .ok none

/-- Whether a `JSVal` is a JavaScript array. -/
def JSVal.isArr : JSVal → Bool
  | .arr _ => true
  | _ => false

/-- Outcome of `POST /api/orders/pay` on a raw body.  `fault` is the
uncaught TypeError thrown by `cartItems.length` outside the handler's
`try` block — an internal failure, not one of the handler's responses. -/
inductive RawPayResult where
  | fault
  | emptyCart
  | serverError
  | ok (razorpayOrder : RazorpayOrder)
  deriving Repr, DecidableEq

/-- `POST /api/orders/pay` on an arbitrary `cartItems` value: evaluate
`cartItems.length === 0` first (a TypeError here escapes the handler); on
an array proceed as `ordersPay`; on a non-array that passed the guard, the
`cartItems.map` call inside the `try` throws and the catch answers 500. -/
def ordersPayRaw (adapter : PaymentAdapter) (l : Ledger) (freshId : Nat)
    (userId : Nat) (cartItems : JSVal) (totalPrice : Int) (now : Nat) :
    RawPayResult × Ledger :=
  match jsLength cartItems with
  | .error _ => (.fault, l)
  | .ok len =>
    if len == some 0 then (.emptyCart, l)
    else
      match cartItems with
      | .arr items =>
        match ordersPay adapter l freshId userId items totalPrice now with
        | (.emptyCart, l') => (.emptyCart, l')
        | (.serverError, l') => (.serverError, l')
        | (.ok ro, l') => (.ok ro, l')
      | _ => (.serverError, l)

/-- Outcome of `POST /api/orders` (`src/unnamed/part_000`) on a raw body.
`fault` is the uncaught TypeError thrown by `cartItems.length` outside the
handler's `try` block. -/
inductive RawCreateResult where
  | fault
  | emptyCart
  | serverError
  | created (order : Order)
  deriving Repr, DecidableEq

/-- `POST /api/orders` of `src/unnamed/part_000` on an arbitrary
`cartItems` value: the guard at the top of the handler evaluates
`cartItems.length === 0` before the `try` block (a TypeError here escapes
the handler); on an array the handler proceeds as `ordersCreate`; on a
non-array that passed the guard, the `cartItems.map` call inside the `try`
throws and the catch answers 500. -/
def ordersCreateRaw (l : Ledger) (fid uid : Nat) (cartItems : JSVal)
    (totalPrice : Int) (now : Nat) : RawCreateResult × Ledger :=
  match jsLength cartItems with
  | .error _ => (.fault, l)
  | .ok len =>
    if len == some 0 then (.emptyCart, l)
    else
      match cartItems with
      | .arr items =>
        match ordersCreate l fid uid items totalPrice now with
        | (.emptyCart, l') => (.emptyCart, l')
        | (.created o, l') => (.created o, l')
      | _ => (.serverError, l)

/-- The total the spec mandates for an order: the sum over its items of
price × quantity (spec §3 invariant).  Spec-side definition, kept separate
so it can be compared with what the handlers actually store. -/
def specItemsTotal (items : List OrderItem) : Int :=
  (items.map (fun it => it.price * it.quantity)).sum

/-! ## Basic lookup/save lemmas -/

theorem findById_cons (p : Nat × Order) (t : Ledger) (id : Nat) :
    findById (p :: t) id = if p.1 = id then some p.2 else findById t id := by
  by_cases h : p.1 = id
  · simp [findById, List.find?_cons, h]
  · have hb : (p.1 == id) = false := beq_eq_false_iff_ne.mpr h
    simp [findById, List.find?_cons, hb, h]

theorem saveOrder_cons (p : Nat × Order) (t : Ledger) (id : Nat) (o : Order) :
    saveOrder (p :: t) id o =
      (if p.1 = id then (p.1, o) else p) :: saveOrder t id o := by
  simp only [saveOrder, List.map_cons]
  by_cases h : p.1 = id <;> simp [h]

theorem findById_saveOrder_ne (l : Ledger) (id id' : Nat) (o : Order)
    (h : id' ≠ id) :
    findById (saveOrder l id o) id' = findById l id' := by
  induction l with
  | nil => rfl
  | cons p t ih =>
    rw [saveOrder_cons, findById_cons, findById_cons]
    by_cases hp : p.1 = id
    · simp [hp, Ne.symm h, ih]
    · by_cases h2 : p.1 = id' <;> simp [hp, h2, h, ih]

theorem findById_saveOrder_eq (l : Ledger) (id : Nat) (o o0 : Order)
    (h : findById l id = some o0) :
    findById (saveOrder l id o) id = some o := by
  induction l with
  | nil => simp [findById] at h
  | cons p t ih =>
    rw [findById_cons] at h
    rw [saveOrder_cons, findById_cons]
    by_cases hp : p.1 = id
    · simp [hp]
    · rw [if_neg hp] at h
      simp only [if_neg hp]
      exact ih h

/-! ## Claims about the access-control layer -/

/-- Claim C1 counterexample: the same valid token, presented against two
credential stores that differ only in the stored user's `isAdmin` flag,
yields two different admin-gate decisions — `authAdmin` re-fetches the user
record instead of trusting the role flags embedded in the token, so the gate
decision is not determined by the token alone. -/
theorem c1_counterexample :
    adminGate 0 (some ⟨⟨1, true, false⟩, true, true, 100⟩)
        [(1, ⟨"a", "a@x", "h", true, false⟩)] =
      .pass ⟨1, true, false⟩ ∧
    adminGate 0 (some ⟨⟨1, true, false⟩, true, true, 100⟩)
        [(1, ⟨"a", "a@x", "h", false, false⟩)] =
      .forbidden "Admin access required" ∧
    GatedOutcome.pass ⟨1, true, false⟩ ≠
      GatedOutcome.forbidden "Admin access required" :=
  ⟨by decide, by decide, by decide⟩

/-- Claim C1 amended: both role gates consult the current user record in
the credential store; the decision is determined by the claim's user id
together with the stored record's role flags, and is independent of the
role flags embedded in the token.  Two verified claims with the same user
id receive the same decision from both gates over any store, and each gate
passes exactly when the stored record exists and carries the required
flag. -/
theorem c1_amended (store : UserStore) (c c' : TokenClaim)
    (h : c.id = c'.id) :
    (authAdmin store c = authAdmin store c' ∧
     authDeliveryAdmin store c = authDeliveryAdmin store c') ∧
    (authAdmin store c = .pass ↔
      ∃ u, userFindById store c.id = some u ∧ u.isAdmin = true) ∧
    (authDeliveryAdmin store c = .pass ↔
      ∃ u, userFindById store c.id = some u ∧ u.isDeliveryAdmin = true) := by
  refine ⟨?_, ?_, ?_⟩
  · unfold authAdmin authDeliveryAdmin
    rw [h]
    exact ⟨rfl, rfl⟩
  · unfold authAdmin
    cases hu : userFindById store c.id with
    | none => simp [hu]
    | some u =>
      by_cases ha : u.isAdmin = true <;> simp [hu, ha]
  · unfold authDeliveryAdmin
    cases hu : userFindById store c.id with
    | none => simp [hu]
    | some u =>
      by_cases ha : u.isDeliveryAdmin = true <;> simp [hu, ha]

/-- Claim C1 amended, witness: two claims for user 1 whose embedded flags
disagree in every position get the same admin-gate decision. -/
theorem c1_amended_witness :
    authAdmin [(1, ⟨"a", "a@x", "h", true, false⟩)] ⟨1, true, false⟩ =
      authAdmin [(1, ⟨"a", "a@x", "h", true, false⟩)] ⟨1, false, true⟩ :=
  (c1_amended [(1, ⟨"a", "a@x", "h", true, false⟩)]
    ⟨1, true, false⟩ ⟨1, false, true⟩ rfl).1.1

/-- Claim C8 counterexample: an expired token and a token with a bad
signature are distinct failure causes inside `jwt.verify`, yet the
middleware's single catch maps both to the same `Token is not valid`
response — the three failure causes do not each map to their own distinct
error value. -/
theorem c8_counterexample :
    jwtVerify 10 ⟨⟨2, false, false⟩, true, true, 5⟩ = .error .expired ∧
    jwtVerify 10 ⟨⟨2, false, false⟩, true, false, 100⟩ =
      .error .badSignature ∧
    auth 10 (some ⟨⟨2, false, false⟩, true, true, 5⟩) =
      auth 10 (some ⟨⟨2, false, false⟩, true, false, 100⟩) :=
  ⟨rfl, rfl, rfl⟩

/-- Claim C8 amended: the middleware distinguishes exactly two failures: a
missing token gets the `No token, authorization denied` response, and every
`jwt.verify` failure — malformed, bad signature, or expired alike — gets
the single `Token is not valid` response; those two responses are distinct
from each other and from every success. -/
theorem c8_amended (now : Nat) (t : Token) (e : VerifyFailure)
    (h : jwtVerify now t = .error e) :
    auth now none = .noToken ∧
    auth now (some t) = .notValid ∧
    AuthOutcome.noToken ≠ AuthOutcome.notValid ∧
    (∀ c, AuthOutcome.notValid ≠ AuthOutcome.authed c) := by
  refine ⟨rfl, ?_, by simp, fun c => by simp⟩
  simp only [auth, h]

/-- Claim C8 amended, witness: a structurally malformed token is rejected
with the generic `Token is not valid` response. -/
theorem c8_amended_witness :
    auth 10 (some ⟨⟨2, false, false⟩, false, true, 100⟩) = .notValid :=
  (c8_amended 10 ⟨⟨2, false, false⟩, false, true, 100⟩ .malformed rfl).2.1

/-! ## Order-creation lemmas shared by several claims -/

theorem ordersPay_fail_eq (adapter : PaymentAdapter) (l : Ledger)
    (fid uid : Nat) (cart : List CartItem) (tp : Int) (now : Nat)
    (hne : cart.length ≠ 0)
    (hfail : adapter ⟨tp * 100, "INR", "receipt_" ++ toString uid⟩ = none) :
    ordersPay adapter l fid uid cart tp now = (.serverError, l) := by
  have hb : (cart.length == 0) = false := beq_eq_false_iff_ne.mpr hne
  simp only [ordersPay, hb, Bool.false_eq_true, if_false, hfail]

theorem ordersPay_success_eq (adapter : PaymentAdapter) (l : Ledger)
    (fid uid : Nat) (cart : List CartItem) (tp : Int) (now : Nat)
    (ro : RazorpayOrder) (hne : cart.length ≠ 0)
    (hro : adapter ⟨tp * 100, "INR", "receipt_" ++ toString uid⟩ = some ro) :
    ordersPay adapter l fid uid cart tp now =
      (.ok ro,
       l ++ [(fid, ⟨uid, some ro.id, mapCartItems cart, tp,
                    "Processing", now⟩)]) := by
  have hb : (cart.length == 0) = false := beq_eq_false_iff_ne.mpr hne
  simp only [ordersPay, hb, Bool.false_eq_true, if_false, hro]

theorem ordersCreate_nonempty_eq (l : Ledger) (fid uid : Nat)
    (cart : List CartItem) (tp : Int) (now : Nat)
    (hne : cart.length ≠ 0) :
    ordersCreate l fid uid cart tp now =
      (.created ⟨uid, none, mapCartItems cart, tp, "Pending", now⟩,
       l ++ [(fid, ⟨uid, none, mapCartItems cart, tp, "Pending", now⟩)]) := by
  have hb : (cart.length == 0) = false := beq_eq_false_iff_ne.mpr hne
  simp only [ordersCreate, hb, Bool.false_eq_true, if_false]

/-! ## Claims about order creation -/

/-- Claim C2 counterexample: `totalPrice` is stored verbatim from the
request body.  A cart of one item at price 10, quantity 2 — spec total
20 — submitted with `totalPrice = 999` is persisted with
`totalPrice = 999`: the client can make the stored total differ from the
sum of item price × quantity. -/
theorem c2_counterexample :
    (ordersPay (fun _ => some ⟨"rzp_1"⟩) [] 0 7 [⟨5, "x", 2, 10⟩] 999 0).2 =
      [(0, ⟨7, some "rzp_1", [⟨5, "x", 2, 10⟩], 999, "Processing", 0⟩)] ∧
    specItemsTotal [⟨5, "x", 2, 10⟩] = 20 ∧
    (999 : Int) ≠ 20 :=
  ⟨rfl, rfl, by decide⟩

/-- Claim C2 amended: on both creation paths the persisted order's
`totalPrice` is exactly the `totalPrice` field supplied by the client in
the request body; neither handler recomputes it from the items, so it is
not constrained to equal the sum of item price × quantity. -/
theorem c2_amended (adapter : PaymentAdapter) (l : Ledger) (fid uid : Nat)
    (cart : List CartItem) (tp : Int) (now : Nat) (ro : RazorpayOrder)
    (hne : cart.length ≠ 0)
    (hro : adapter ⟨tp * 100, "INR", "receipt_" ++ toString uid⟩ = some ro) :
    (ordersPay adapter l fid uid cart tp now).2 =
      l ++ [(fid, ⟨uid, some ro.id, mapCartItems cart, tp,
                   "Processing", now⟩)] ∧
    (⟨uid, some ro.id, mapCartItems cart, tp, "Processing", now⟩ :
        Order).totalPrice = tp ∧
    (ordersCreate l fid uid cart tp now).2 =
      l ++ [(fid, ⟨uid, none, mapCartItems cart, tp, "Pending", now⟩)] ∧
    (⟨uid, none, mapCartItems cart, tp, "Pending", now⟩ :
        Order).totalPrice = tp := by
  refine ⟨?_, rfl, ?_, rfl⟩
  · rw [ordersPay_success_eq adapter l fid uid cart tp now ro hne hro]
  · rw [ordersCreate_nonempty_eq l fid uid cart tp now hne]

/-- Claim C2 amended, witness: the counterexample cart stored with the
client-supplied total 999. -/
theorem c2_amended_witness :
    (ordersPay (fun _ => some ⟨"rzp_2"⟩) [] 0 7 [⟨5, "x", 2, 10⟩] 999 0).2 =
      [] ++ [(0, ⟨7, some "rzp_2", mapCartItems [⟨5, "x", 2, 10⟩], 999,
                  "Processing", 0⟩)] :=
  (c2_amended (fun _ => some ⟨"rzp_2"⟩) [] 0 7 [⟨5, "x", 2, 10⟩] 999 0
    ⟨"rzp_2"⟩ (by decide) rfl).1

/-- Claim C3: when the cart is non-empty and the payment adapter call
fails, `POST /api/orders/pay` answers with the error response and the
ledger is exactly as it was before the call — no order record is
written. -/
theorem c3_no_order_on_payment_failure (adapter : PaymentAdapter)
    (l : Ledger) (fid uid : Nat) (cart : List CartItem) (tp : Int)
    (now : Nat) (hne : cart.length ≠ 0)
    (hfail : adapter ⟨tp * 100, "INR", "receipt_" ++ toString uid⟩ = none) :
    ordersPay adapter l fid uid cart tp now = (.serverError, l) :=
  ordersPay_fail_eq adapter l fid uid cart tp now hne hfail

/-- Claim C3, witness: a concrete one-item cart against an adapter that
always fails leaves the empty ledger empty. -/
theorem c3_witness :
    ordersPay (fun _ => none) [] 0 7 [⟨5, "x", 2, 10⟩] 20 0 =
      (.serverError, []) :=
  c3_no_order_on_payment_failure (fun _ => none) [] 0 7 [⟨5, "x", 2, 10⟩]
    20 0 (by decide) rfl

/-- Claim C6: with an empty cart, both creation endpoints answer the
empty-cart error and leave the ledger untouched, for every adapter,
ledger, user and supplied total. -/
theorem c6_empty_cart (adapter : PaymentAdapter) (l : Ledger)
    (fid uid : Nat) (tp : Int) (now : Nat) :
    ordersPay adapter l fid uid [] tp now = (.emptyCart, l) ∧
    ordersCreate l fid uid [] tp now = (.emptyCart, l) :=
  ⟨rfl, rfl⟩

/-- Claim C7: every order persisted by the payment-initiating path has
status `Processing` with the adapter's payment-session handle attached,
and every order persisted by the direct path has status `Pending` with no
handle; each path appends exactly that one record. -/
theorem c7_initial_status (adapter : PaymentAdapter) (l : Ledger)
    (fid uid : Nat) (cart : List CartItem) (tp : Int) (now : Nat)
    (ro : RazorpayOrder) (hne : cart.length ≠ 0)
    (hro : adapter ⟨tp * 100, "INR", "receipt_" ++ toString uid⟩ = some ro) :
    ordersPay adapter l fid uid cart tp now =
      (.ok ro,
       l ++ [(fid, ⟨uid, some ro.id, mapCartItems cart, tp,
                    "Processing", now⟩)]) ∧
    ordersCreate l fid uid cart tp now =
      (.created ⟨uid, none, mapCartItems cart, tp, "Pending", now⟩,
       l ++ [(fid, ⟨uid, none, mapCartItems cart, tp, "Pending", now⟩)]) :=
  ⟨ordersPay_success_eq adapter l fid uid cart tp now ro hne hro,
   ordersCreate_nonempty_eq l fid uid cart tp now hne⟩

/-- Claim C7, witness: a concrete one-item cart lands in `Processing` with
the handle on the pay path and in `Pending` on the direct path. -/
theorem c7_witness :
    ordersPay (fun _ => some ⟨"rzp_3"⟩) [] 4 7 [⟨5, "x", 1, 10⟩] 10 0 =
      (.ok ⟨"rzp_3"⟩,
       [] ++ [(4, ⟨7, some "rzp_3", mapCartItems [⟨5, "x", 1, 10⟩], 10,
                   "Processing", 0⟩)]) :=
  (c7_initial_status (fun _ => some ⟨"rzp_3"⟩) [] 4 7 [⟨5, "x", 1, 10⟩]
    10 0 ⟨"rzp_3"⟩ (by decide) rfl).1

/-! ## Cancellation and delivery-status lemmas -/

theorem cancelOrder_eq_none (l : Ledger) (oid rid : Nat)
    (h : findById l oid = none) :
    cancelOrder l oid rid = (.notFound, l) := by
  simp [cancelOrder, h]

theorem cancelOrder_eq_some (l : Ledger) (oid rid : Nat) (o : Order)
    (h : findById l oid = some o) :
    cancelOrder l oid rid =
      if o.user = rid then
        if o.status = "Processing" ∨ o.status = "Pending" then
          (.ok { o with status := "Canceled" },
           saveOrder l oid { o with status := "Canceled" })
        else (.invalidState, l)
      else (.notOwner, l) := by
  by_cases hu : o.user = rid <;>
    by_cases hs1 : o.status = "Processing" <;>
      by_cases hs2 : o.status = "Pending" <;>
        simp [cancelOrder, h, hu, hs1, hs2]

/-! ## Claims about cancellation and delivery-status updates -/

/-- Claim C4: cancellation succeeds exactly when the order exists, the
requester owns it, and its status is `Processing` or `Pending`; a missing
order answers not-found, a foreign order answers the not-authorized
response before any status check, an order in any other status answers the
invalid-stage response, and a successful cancellation persists the order
with status `Canceled`. -/
theorem c4_cancel_spec (l : Ledger) (oid rid : Nat) :
    ((∃ o', (cancelOrder l oid rid).1 = .ok o') ↔
      (∃ o, findById l oid = some o ∧ o.user = rid ∧
        (o.status = "Processing" ∨ o.status = "Pending"))) ∧
    (findById l oid = none → cancelOrder l oid rid = (.notFound, l)) ∧
    (∀ o, findById l oid = some o →
      (o.user ≠ rid → cancelOrder l oid rid = (.notOwner, l)) ∧
      (o.user = rid → o.status ≠ "Processing" → o.status ≠ "Pending" →
        cancelOrder l oid rid = (.invalidState, l)) ∧
      (o.user = rid → (o.status = "Processing" ∨ o.status = "Pending") →
        cancelOrder l oid rid =
          (.ok { o with status := "Canceled" },
           saveOrder l oid { o with status := "Canceled" }) ∧
        findById (cancelOrder l oid rid).2 oid =
          some { o with status := "Canceled" })) := by
  cases hfind : findById l oid with
  | none =>
    refine ⟨?_, fun _ => cancelOrder_eq_none l oid rid hfind,
      fun o ho => Option.noConfusion ho⟩
    rw [cancelOrder_eq_none l oid rid hfind]
    constructor
    · rintro ⟨o', ho'⟩
      exact absurd ho' (by simp)
    · rintro ⟨o, ho, -⟩
      exact Option.noConfusion ho
  | some o =>
    have hmain := cancelOrder_eq_some l oid rid o hfind
    refine ⟨?_, fun hnone => Option.noConfusion hnone, fun o' ho' => ?_⟩
    · by_cases hu : o.user = rid
      · by_cases hs : o.status = "Processing" ∨ o.status = "Pending"
        · rw [hmain, if_pos hu, if_pos hs]
          exact ⟨fun _ => ⟨o, rfl, hu, hs⟩, fun _ => ⟨_, rfl⟩⟩
        · rw [hmain, if_pos hu, if_neg hs]
          constructor
          · rintro ⟨o'', h''⟩
            exact absurd h'' (by simp)
          · rintro ⟨o₁, h₁, -, hst⟩
            injection h₁ with h₁
            subst h₁
            exact (hs hst).elim
      · rw [hmain, if_neg hu]
        constructor
        · rintro ⟨o'', h''⟩
          exact absurd h'' (by simp)
        · rintro ⟨o₁, h₁, h₂, -⟩
          injection h₁ with h₁
          subst h₁
          exact (hu h₂).elim
    · injection ho' with ho'
      subst ho'
      refine ⟨fun hne => ?_, fun hu hs1 hs2 => ?_, fun hu hs => ?_⟩
      · rw [hmain, if_neg hne]
      · rw [hmain, if_pos hu, if_neg (by tauto)]
      · have heq := hmain.trans (by rw [if_pos hu, if_pos hs])
        refine ⟨heq, ?_⟩
        rw [heq]
        exact findById_saveOrder_eq l oid _ o hfind

/-- Claim C4, witness: the owner cancels a `Processing` order; it is
persisted as `Canceled`. -/
theorem c4_witness :
    cancelOrder [(1, ⟨7, some "r1", [⟨5, "x", 1, 10⟩], 10, "Processing", 0⟩)]
        1 7 =
      (.ok ⟨7, some "r1", [⟨5, "x", 1, 10⟩], 10, "Canceled", 0⟩,
       saveOrder [(1, ⟨7, some "r1", [⟨5, "x", 1, 10⟩], 10, "Processing", 0⟩)]
         1 ⟨7, some "r1", [⟨5, "x", 1, 10⟩], 10, "Canceled", 0⟩) :=
  (((c4_cancel_spec
      [(1, ⟨7, some "r1", [⟨5, "x", 1, 10⟩], 10, "Processing", 0⟩)] 1 7).2.2
    ⟨7, some "r1", [⟨5, "x", 1, 10⟩], 10, "Processing", 0⟩ rfl).2.2
    rfl (Or.inl rfl)).1

/-- Claim C5: the delivery-status update answers not-found exactly when
the order is missing, and otherwise overwrites the status with the
client-supplied string — any string whatsoever, terminal states and values
outside the enum included — and persists the result. -/
theorem c5_setDeliveryStatus_spec (l : Ledger) (oid : Nat) (s : String) :
    (findById l oid = none → setDeliveryStatus l oid s = (.notFound, l)) ∧
    (∀ o, findById l oid = some o →
      setDeliveryStatus l oid s =
        (.ok { o with status := s }, saveOrder l oid { o with status := s }) ∧
      findById (setDeliveryStatus l oid s).2 oid =
        some { o with status := s }) := by
  constructor
  · intro h
    simp [setDeliveryStatus, h]
  · intro o h
    have heq : setDeliveryStatus l oid s =
        (.ok { o with status := s },
         saveOrder l oid { o with status := s }) := by
      simp [setDeliveryStatus, h]
    refine ⟨heq, ?_⟩
    rw [heq]
    exact findById_saveOrder_eq l oid _ o h

/-- Claim C5, witness: a delivery admin overwrites a terminal `Delivered`
order with the out-of-enum string `Bogus`, and the overwrite persists. -/
theorem c5_witness :
    setDeliveryStatus [(3, ⟨1, none, [], 0, "Delivered", 0⟩)] 3 "Bogus" =
      (.ok ⟨1, none, [], 0, "Bogus", 0⟩,
       saveOrder [(3, ⟨1, none, [], 0, "Delivered", 0⟩)] 3
         ⟨1, none, [], 0, "Bogus", 0⟩) :=
  ((c5_setDeliveryStatus_spec [(3, ⟨1, none, [], 0, "Delivered", 0⟩)] 3
      "Bogus").2 ⟨1, none, [], 0, "Delivered", 0⟩ rfl).1

/-- Claim C9: a successful cancellation changes only the status field of
the canceled order — user, items, totalPrice, payment handle and creation
timestamp are preserved — and every other id in the ledger still resolves
to exactly the order it resolved to before. -/
theorem c9_cancel_frame (l : Ledger) (oid rid : Nat) (o : Order)
    (h : findById l oid = some o) (hown : o.user = rid)
    (hst : o.status = "Processing" ∨ o.status = "Pending") :
    (cancelOrder l oid rid).1 = .ok { o with status := "Canceled" } ∧
    findById (cancelOrder l oid rid).2 oid =
      some { o with status := "Canceled" } ∧
    ({ o with status := "Canceled" } : Order).user = o.user ∧
    ({ o with status := "Canceled" } : Order).items = o.items ∧
    ({ o with status := "Canceled" } : Order).totalPrice = o.totalPrice ∧
    ({ o with status := "Canceled" } : Order).razorpayOrderId =
      o.razorpayOrderId ∧
    ({ o with status := "Canceled" } : Order).createdAt = o.createdAt ∧
    (∀ oid', oid' ≠ oid →
      findById (cancelOrder l oid rid).2 oid' = findById l oid') := by
  have hmain := cancelOrder_eq_some l oid rid o h
  rw [hmain, if_pos hown, if_pos hst]
  exact ⟨rfl, findById_saveOrder_eq l oid _ o h, rfl, rfl, rfl, rfl, rfl,
    fun oid' hne => findById_saveOrder_ne l oid oid' _ hne⟩

/-- Claim C9, witness: canceling order 1 leaves order 2 resolving to the
same record as before. -/
theorem c9_witness :
    findById (cancelOrder
        [(1, ⟨7, none, [], 5, "Pending", 3⟩),
         (2, ⟨8, none, [], 6, "Delivered", 4⟩)] 1 7).2 2 =
      findById
        [(1, ⟨7, none, [], 5, "Pending", 3⟩),
         (2, ⟨8, none, [], 6, "Delivered", 4⟩)] 2 :=
  (c9_cancel_frame
      [(1, ⟨7, none, [], 5, "Pending", 3⟩),
       (2, ⟨8, none, [], 6, "Delivered", 4⟩)] 1 7
      ⟨7, none, [], 5, "Pending", 3⟩ rfl rfl
      (Or.inr rfl)).2.2.2.2.2.2.2 2 (by decide)

/-! ## Claim about the raw empty-cart guard -/

/-- Claim C10 counterexample: a request whose `cartItems` is the empty
string is not an array, yet reading its `length` does not fault — it reads
0 — and both creation handlers answer with the empty-cart error.  So it is
not true that every non-array `cartItems` faults at the length read, nor
that the empty-cart branch is reached only when `cartItems` is a present
array. -/
theorem c10_counterexample :
    (JSVal.str "").isArr = false ∧
    jsLength (.str "") = .ok (some 0) ∧
    ordersPayRaw (fun _ => some ⟨"r"⟩) [] 0 1 (.str "") 5 0 =
      (.emptyCart, []) ∧
    ordersCreateRaw [] 0 1 (.str "") 5 0 = (.emptyCart, []) :=
  ⟨rfl, rfl, rfl, rfl⟩

/-- Claim C10 amended: on both creation endpoints, when `cartItems` is
absent or `null`, reading its length faults before the empty-cart guard
runs and the request ends in an internal failure with the ledger
untouched; the empty-cart error is returned exactly when the supplied
value's `length` property reads the number 0 — which holds for the empty
array, for the empty string, and for an object whose `length` property is
0 — and in that case nothing is written either. -/
theorem c10_raw_guard (adapter : PaymentAdapter) (l : Ledger)
    (fid uid : Nat) (tp : Int) (now : Nat) (v : JSVal) :
    (v = .absent →
      ordersPayRaw adapter l fid uid v tp now = (.fault, l) ∧
      ordersCreateRaw l fid uid v tp now = (.fault, l)) ∧
    ((ordersPayRaw adapter l fid uid v tp now).1 = .emptyCart ↔
      jsLength v = .ok (some 0)) ∧
    ((ordersCreateRaw l fid uid v tp now).1 = .emptyCart ↔
      jsLength v = .ok (some 0)) ∧
    (jsLength v = .ok (some 0) →
      (ordersPayRaw adapter l fid uid v tp now).2 = l ∧
      (ordersCreateRaw l fid uid v tp now).2 = l) := by
  cases v with
  | absent =>
    exact ⟨fun _ => ⟨rfl, rfl⟩,
      by simp [ordersPayRaw, jsLength],
      by simp [ordersCreateRaw, jsLength],
      fun hk => by simp [jsLength] at hk⟩
  | arr items =>
    refine ⟨fun habs => by simp at habs, ?_, ?_, ?_⟩
    · by_cases hlen : items.length = 0
      · simp [ordersPayRaw, jsLength, hlen]
      · cases hadapt :
          adapter ⟨tp * 100, "INR", "receipt_" ++ toString uid⟩ with
        | none =>
          have he := ordersPay_fail_eq adapter l fid uid items tp now
            hlen hadapt
          simp [ordersPayRaw, jsLength, hlen, he]
        | some ro =>
          have he := ordersPay_success_eq adapter l fid uid items tp now
            ro hlen hadapt
          simp [ordersPayRaw, jsLength, hlen, he]
    · by_cases hlen : items.length = 0
      · simp [ordersCreateRaw, jsLength, hlen]
      · have he := ordersCreate_nonempty_eq l fid uid items tp now hlen
        simp [ordersCreateRaw, jsLength, hlen, he]
    · intro hk
      simp only [jsLength, Except.ok.injEq, Option.some.injEq,
        Int.natCast_eq_zero] at hk
      exact ⟨by simp [ordersPayRaw, jsLength, hk],
        by simp [ordersCreateRaw, jsLength, hk]⟩
  | str s =>
    refine ⟨fun habs => by simp at habs, ?_, ?_, ?_⟩
    · by_cases hs : s.length = 0
      · simp [ordersPayRaw, jsLength, hs]
      · simp [ordersPayRaw, jsLength, hs]
    · by_cases hs : s.length = 0
      · simp [ordersCreateRaw, jsLength, hs]
      · simp [ordersCreateRaw, jsLength, hs]
    · intro hk
      simp only [jsLength, Except.ok.injEq, Option.some.injEq,
        Int.natCast_eq_zero] at hk
      exact ⟨by simp [ordersPayRaw, jsLength, hk],
        by simp [ordersCreateRaw, jsLength, hk]⟩
  | obj len =>
    refine ⟨fun habs => by simp at habs, ?_, ?_, ?_⟩
    · by_cases hz : len = some 0
      · simp [ordersPayRaw, jsLength, hz]
      · simp [ordersPayRaw, jsLength, hz]
    · by_cases hz : len = some 0
      · simp [ordersCreateRaw, jsLength, hz]
      · simp [ordersCreateRaw, jsLength, hz]
    · intro hk
      simp only [jsLength, Except.ok.injEq] at hk
      exact ⟨by simp [ordersPayRaw, jsLength, hk],
        by simp [ordersCreateRaw, jsLength, hk]⟩
  | other =>
    exact ⟨fun habs => by simp at habs,
      by simp [ordersPayRaw, jsLength],
      by simp [ordersCreateRaw, jsLength],
      fun hk => by simp [jsLength] at hk⟩

/-- Claim C10 amended, witness: with `cartItems` absent both creation
handlers fault and leave the ledger untouched. -/
theorem c10_raw_guard_witness :
    ordersPayRaw (fun _ => some ⟨"r2"⟩) [] 0 1 .absent 5 0 =
      (.fault, []) ∧
    ordersCreateRaw [] 0 1 .absent 5 0 = (.fault, []) :=
  (c10_raw_guard (fun _ => some ⟨"r2"⟩) [] 0 1 5 0 .absent).1 rfl

end ECom
